import Mathlib

/-!
A shallow embedding of the form-identifier and subrecord-marshalling logic of
`Mopy/bash/brec/utils_constants.py` and `Mopy/bash/brec/common_subrecords.py`
(Wrye Bash's `brec` package), together with theorems settling the spec's
claims about that code.

Machine integers are modelled as `Nat` (Python ints are unbounded; the short
form id is a 32-bit value whose operations `>> 24` and `& 0xFFFFFF` are
embedded as `>>>` and `&&&` on `Nat`).  Python exceptions are modelled by an
`Except` result carrying a `PyError`.  Master-file names (`bolt.FName`, a
totally ordered string type) are modelled by a type parameter `FN` carrying a
`LinearOrder` instance.
-/

namespace Brec

/-- The Python exceptions that the embedded code can raise: built-in
`TypeError`, `AttributeError`, `IndexError`, `NotImplementedError`,
`struct.error`, and Wrye Bash's `exception.StateError` and `ModError`. -/
inductive PyError where
  | typeError
  | attributeError
  | stateError
  | indexError
  | notImplementedError
  | structError
  | modError
  deriving DecidableEq, Repr

/-- The value of the `FormId.long_fid` attribute.  The base `FormId` class
"performs no conversion": its `long_fid` is the bare short integer
(constructor `short`).  Subclasses created inside a load context return a
`(master-file-name, object-index)` tuple (constructor `long`).
Source: `utils_constants.py`, `FormId.long_fid` and `FormId.from_masters`. -/
inductive LongFid (FN : Type) where
  | short (n : Nat)
  | long (fn : FN) (obj : Nat)
  deriving DecidableEq

/-- `FormId.mod_dex`: the high byte of the short form id
(`self.short_fid >> 24`). -/
def mod_dex (s : Nat) : Nat := s >>> 24

/-- `FormId.object_dex`: the low 24 bits of the short form id
(`self.short_fid & 0x00FFFFFF`). -/
def object_dex (s : Nat) : Nat := s &&& 0xFFFFFF

/-- `FormId.is_null`: `self.object_dex == 0` (the comment in the source notes
that `0x01000000` is also NULL, hence `object_dex` and not `short_fid`). -/
def is_null (s : Nat) : Bool := object_dex s == 0

/-- The `long_fid` of the subclass produced by `FormId.from_masters` for a
non-overlay plugin: `masters[self.mod_dex], self.short_fid & 0xFFFFFF`, with
an `IndexError` caught and turned into `masters[-1], self.short_fid & 0xFFFFFF`
(clamping HITMEs to the plugin's own address space).  An empty master list
makes `masters[-1]` itself raise `IndexError`, which propagates. -/
def fromMastersLongFid (FN : Type) (masters : List FN) (s : Nat) :
    Except PyError (FN × Nat) :=
  match masters[mod_dex s]? with
  | some fn => .ok (fn, s &&& 0xFFFFFF)
  | none =>
    match masters.getLast? with
    | some fn => .ok (fn, s &&& 0xFFFFFF)
    | none => .error .indexError

/-- The `long_fid` of the subclass produced by `FormId.from_masters` for an
overlay plugin: indices at or above `len(augmented_masters) - 1` are redirected
to the first master, with the same `IndexError` clamping as the non-overlay
case. -/
def fromMastersLongFidOverlay (FN : Type) (masters : List FN) (s : Nat) :
    Except PyError (FN × Nat) :=
  let overlay_threshold := masters.length - 1
  let dex := if overlay_threshold ≤ mod_dex s then 0 else mod_dex s
  match masters[dex]? with
  | some fn => .ok (fn, s &&& 0xFFFFFF)
  | none =>
    match masters.getLast? with
    | some fn => .ok (fn, s &&& 0xFFFFFF)
    | none => .error .indexError

/-- The `long_fid` of a plain `FormId` built outside any load context: the
base class "doesn't map by default", it returns the bare short integer. -/
def baseLongFid (FN : Type) (s : Nat) : LongFid FN := .short s

/-- Python subscripting `long_fid[0]`: succeeds on a tuple, raises
`TypeError` on an int. -/
def pyGetItemZero {FN : Type} : LongFid FN → Except PyError FN
  | .long fn _ => .ok fn
  | .short _ => .error .typeError

/-- `FormId.mod_fn`: `return self.long_fid[0]`, catching the `TypeError`
raised when `long_fid` is not a tuple and re-raising it as
`StateError(f'... not in long format')`. -/
def mod_fn {FN : Type} (lf : LongFid FN) : Except PyError FN :=
  match pyGetItemZero lf with
  | .error .typeError => .error .stateError
  | r => r

/-! ### FormId ordering (`FormId.__lt__` and friends) -/

/-- Python `<` on two `long_fid` values: two ints compare numerically, two
tuples compare lexicographically (`FName` first, then object index), and a
mixed int/tuple comparison raises `TypeError`. -/
def long_lt {FN : Type} [LinearOrder FN] :
    LongFid FN → LongFid FN → Except PyError Bool
  | .short a, .short b => .ok (decide (a < b))
  | .long f1 o1, .long f2 o2 => .ok (decide (f1 < f2 ∨ (f1 = f2 ∧ o1 < o2)))
  | _, _ => .error .typeError

/-- Python `<=` on two `long_fid` values (lexicographic on tuples). -/
def long_le {FN : Type} [LinearOrder FN] :
    LongFid FN → LongFid FN → Except PyError Bool
  | .short a, .short b => .ok (decide (a ≤ b))
  | .long f1 o1, .long f2 o2 => .ok (decide (f1 < f2 ∨ (f1 = f2 ∧ o1 ≤ o2)))
  | _, _ => .error .typeError

/-- Python `>` on two `long_fid` values (lexicographic on tuples). -/
def long_gt {FN : Type} [LinearOrder FN] :
    LongFid FN → LongFid FN → Except PyError Bool
  | .short a, .short b => .ok (decide (b < a))
  | .long f1 o1, .long f2 o2 => .ok (decide (f2 < f1 ∨ (f2 = f1 ∧ o2 < o1)))
  | _, _ => .error .typeError

/-- Python `>=` on two `long_fid` values (lexicographic on tuples). -/
def long_ge {FN : Type} [LinearOrder FN] :
    LongFid FN → LongFid FN → Except PyError Bool
  | .short a, .short b => .ok (decide (b ≤ a))
  | .long f1 o1, .long f2 o2 => .ok (decide (f2 < f1 ∨ (f2 = f1 ∧ o2 ≤ o1)))
  | _, _ => .error .typeError

/-- Python `==` on two `long_fid` values: never raises; an int never equals a
tuple. -/
def long_eq {FN : Type} [DecidableEq FN] : LongFid FN → LongFid FN → Bool
  | .short a, .short b => a == b
  | .long f1 o1, .long f2 o2 => decide (f1 = f2) && (o1 == o2)
  | _, _ => false

/-- The ambient dump-time resolver `short_mapper` (module global of
`utils_constants.py`): `None` outside a plugin-output context, otherwise a
function from a form id to its short form for the output file's masters.  A
form id is identified with its `long_fid` here, which is the only state its
comparison methods consult. -/
abbrev ShortMapper (FN : Type) := Option (LongFid FN → Nat)

/-- `FormId.__lt__`: first tries `short_mapper(self) < short_mapper(other)`
inside `suppress(TypeError)` — when `short_mapper` is `None` calling it raises
`TypeError`, which is suppressed, falling through to
`self.long_fid < other.long_fid` (whose own `TypeError`, raised on mixed
int/tuple operands, is *not* suppressed). -/
def fid_lt {FN : Type} [LinearOrder FN] (sm : ShortMapper FN)
    (a b : LongFid FN) : Except PyError Bool :=
  match sm with
  | some m => .ok (decide (m a < m b))
  | none => long_lt a b

/-- `FormId.__le__`: same dichotomy as `FormId.__lt__`. -/
def fid_le {FN : Type} [LinearOrder FN] (sm : ShortMapper FN)
    (a b : LongFid FN) : Except PyError Bool :=
  match sm with
  | some m => .ok (decide (m a ≤ m b))
  | none => long_le a b

/-- `FormId.__gt__`: same dichotomy as `FormId.__lt__`. -/
def fid_gt {FN : Type} [LinearOrder FN] (sm : ShortMapper FN)
    (a b : LongFid FN) : Except PyError Bool :=
  match sm with
  | some m => .ok (decide (m b < m a))
  | none => long_gt a b

/-- `FormId.__ge__`: same dichotomy as `FormId.__lt__`. -/
def fid_ge {FN : Type} [LinearOrder FN] (sm : ShortMapper FN)
    (a b : LongFid FN) : Except PyError Bool :=
  match sm with
  | some m => .ok (decide (m b ≤ m a))
  | none => long_ge a b

/-! ### The NONE sentinel (`_NoneFid`) and Python's rich-comparison protocol -/

/-- Result of one rich-comparison special method: a value, `NotImplemented`,
or a raised exception. -/
inductive MethRes (α : Type) where
  | val (v : α)
  | notImp
  | exn (e : PyError)
  deriving DecidableEq

/-- An operand of a fid comparison: either a real `FormId` (identified with
its `long_fid`) or the `NONE_FID` sentinel (`_NoneFid`, deliberately *not* a
`FormId` subclass). -/
inductive FidOrNone (FN : Type) where
  | real (f : LongFid FN)
  | nf
  deriving DecidableEq

/-- `_NoneFid.__lt__`: `False` whenever the operand is a `FormId` or a
`_NoneFid` (the only operand kinds modelled). -/
def noneFid_lt {FN : Type} : FidOrNone FN → MethRes Bool
  | _ => .val false

/-- `_NoneFid.__gt__`: `True` against a `FormId`, `False` against a
`_NoneFid`. -/
def noneFid_gt {FN : Type} : FidOrNone FN → MethRes Bool
  | .real _ => .val true
  | .nf => .val false

/-- `_NoneFid.__eq__`: `False` against a `FormId`, `True` against a
`_NoneFid`. -/
def noneFid_eq {FN : Type} : FidOrNone FN → MethRes Bool
  | .real _ => .val false
  | .nf => .val true

/-- `FormId.__lt__` as a special method, with no active `short_mapper` (the
`TypeError` from calling `None` is suppressed).  Against a real fid it
compares `long_fid`s; against `_NoneFid`, `other.long_fid` raises
`AttributeError` (suppressed), the `isinstance(self.long_fid, _NoneFid)`
check fails, and the method returns `NotImplemented`. -/
def formId_lt_meth {FN : Type} [LinearOrder FN] (a : LongFid FN) :
    FidOrNone FN → MethRes Bool
  | .real g =>
    match long_lt a g with
    | .ok v => .val v
    | .error e => .exn e
  | .nf => .notImp

/-- `FormId.__gt__` as a special method, no active `short_mapper`
(see `formId_lt_meth`). -/
def formId_gt_meth {FN : Type} [LinearOrder FN] (a : LongFid FN) :
    FidOrNone FN → MethRes Bool
  | .real g =>
    match long_gt a g with
    | .ok v => .val v
    | .error e => .exn e
  | .nf => .notImp

/-- `FormId.__eq__` as a special method: compares `long_fid`s against a real
fid; against `_NoneFid` the `AttributeError` is suppressed, `other` is not
`None`, the `isinstance` check fails, and it returns `NotImplemented`. -/
def formId_eq_meth {FN : Type} [DecidableEq FN] (a : LongFid FN) :
    FidOrNone FN → MethRes Bool
  | .real g => .val (long_eq a g)
  | .nf => .notImp

/-- Dispatch `__lt__` on the left operand's class. -/
def meth_lt {FN : Type} [LinearOrder FN] :
    FidOrNone FN → FidOrNone FN → MethRes Bool
  | .real f, other => formId_lt_meth f other
  | .nf, other => noneFid_lt other

/-- Dispatch `__gt__` on the left operand's class. -/
def meth_gt {FN : Type} [LinearOrder FN] :
    FidOrNone FN → FidOrNone FN → MethRes Bool
  | .real f, other => formId_gt_meth f other
  | .nf, other => noneFid_gt other

/-- Dispatch `__eq__` on the left operand's class. -/
def meth_eq {FN : Type} [DecidableEq FN] :
    FidOrNone FN → FidOrNone FN → MethRes Bool
  | .real f, other => formId_eq_meth f other
  | .nf, other => noneFid_eq other

/-- Python's evaluation of `a < b` (no active `short_mapper`):
`type(a).__lt__(a, b)`, and on `NotImplemented` the reflected
`type(b).__gt__(b, a)`; if both decline, `TypeError`. -/
def pyLt {FN : Type} [LinearOrder FN] (a b : FidOrNone FN) :
    Except PyError Bool :=
  match meth_lt a b with
  | .val v => .ok v
  | .exn e => .error e
  | .notImp =>
    match meth_gt b a with
    | .val v => .ok v
    | .exn e => .error e
    | .notImp => .error .typeError

/-- Python's evaluation of `a > b` (no active `short_mapper`): `__gt__`, then
the reflected `__lt__`. -/
def pyGt {FN : Type} [LinearOrder FN] (a b : FidOrNone FN) :
    Except PyError Bool :=
  match meth_gt a b with
  | .val v => .ok v
  | .exn e => .error e
  | .notImp =>
    match meth_lt b a with
    | .val v => .ok v
    | .exn e => .error e
    | .notImp => .error .typeError

/-- Python's evaluation of `a == b`: `__eq__`, then the reflected `__eq__`;
if both decline, CPython falls back to identity, which for the distinct
objects reachable here is `False` (this fallback is in fact unreachable in
this model). -/
def pyEq {FN : Type} [DecidableEq FN] (a b : FidOrNone FN) :
    Except PyError Bool :=
  match meth_eq a b with
  | .val v => .ok v
  | .exn e => .error e
  | .notImp =>
    match meth_eq b a with
    | .val v => .ok v
    | .exn e => .error e
    | .notImp => .ok false

/-! ### Sentinel dump behaviour -/

/-- `_NoneFid.dump`: `return 0xFFFFFFFF` — it does *not* raise. -/
def noneFid_dump : Except PyError Nat := .ok 0xFFFFFFFF

/-- `_DummyFid.dump`: `raise NotImplementedError('Dumping a dummy fid')`. -/
def dummyFid_dump : Except PyError Nat := .error .notImplementedError

/-- `_Tes4Fid.dump`: `return 0`. -/
def tes4Fid_dump : Except PyError Nat := .ok 0

/-! ### Bitflag sets (`_SpellFlags`, `common_subrecords.py`) -/

/-- Modelled from the spec: `bolt.Flags.__setitem__` (the `bolt` module is
not among the provided sources).  Per §4.1, bitflag sets are "addressed by
bit index": setting index `i` to `True` sets bit `i` (`f | (1 << i)`), to
`False` clears bit `i` (`f & ~(1 << i)`); on `Nat`, clearing is expressed by
xor-ing the bit away when it is set, which produces the same integer. -/
def flags_setitem (f : Nat) (index : Nat) (value : Bool) : Nat :=
  if value then f ||| (1 <<< index)
  else f ^^^ (if f.testBit index then 1 <<< index else 0)

/-- `_SpellFlags.__setitem__`: delegates to `Flags.__setitem__`, and when the
index is 1 (`immuneToSilence`) additionally sets bit 3 to the same value. -/
def spellFlags_setitem (f : Nat) (index : Nat) (value : Bool) : Nat :=
  let f1 := flags_setitem f index value
  if index == 1 then flags_setitem f1 3 value else f1

/-! ### `MelRaceVoices.pack_subrecord_data` (`common_subrecords.py`) -/

/-- A record as seen by `MelRaceVoices`: the two voice attributes and the
record's own form id.  `V` stands for the Python value domain of these
attributes (form ids and the int `0`), compared with Python `==`. -/
structure RaceVoicesRec (V : Type) where
  maleVoice : V
  femaleVoice : V
  fid : V

/-- `MelRaceVoices.pack_subrecord_data`: zero a voice equal to the record's
own fid (mutating the record), then skip the subrecord (`return None`) when
both voices are zero, else produce the normal struct bytes from the (now
possibly zeroed) attributes.  `zero` embeds the Python int `0`; `packS`
stands for the inherited `MelStruct.pack_subrecord_data` (defined in
`base_elements.py`, not among the provided sources), applied to the record's
voice attributes.  Returns the mutated record and the optional payload. -/
def melRaceVoices_pack {V B : Type} [DecidableEq V] (zero : V)
    (packS : V → V → B) (r : RaceVoicesRec V) : RaceVoicesRec V × Option B :=
  let mv := if r.maleVoice = r.fid then zero else r.maleVoice
  let fv := if r.femaleVoice = r.fid then zero else r.femaleVoice
  let r1 : RaceVoicesRec V := ⟨mv, fv, r.fid⟩
  if (mv, fv) ≠ (zero, zero) then (r1, some (packS mv fv)) else (r1, none)

/-! ### `MelDebrData.load_mel` (`common_subrecords.py`) -/

/-- The record attributes `MelDebrData.load_mel` can populate; `none` means
the attribute was never assigned. -/
structure DebrState where
  percentage : Option Nat
  modPath : Option (List Nat)
  debr_flags : Option Nat
  deriving DecidableEq, Repr

/-- The constant `null1 = b'\x00'` from `utils_constants.py`, a one-byte
bytes object. -/
def null1 : List Nat := [0]

/-- Python `==` between an int (obtained by indexing a bytes object) and a
bytes object: always `False`, whatever the values — the two types never
compare equal. -/
def pyIntEqBytes (_ : Nat) (_ : List Nat) : Bool := false

/-- `MelDebrData.load_mel` on a chunk `byte_data` (a list of byte values):
`record.percentage = unpack_byte(byte_data[0:1])` (raises `struct.error` on
an empty chunk), `record.modPath = byte_data[1:-2]`, then
`if byte_data[-2] != null1: raise ModError(...)` — `byte_data[-2]` is an
*int* compared against the *bytes* constant `null1`, so the test is true on
every input and `ModError` is always raised; a chunk shorter than 2 bytes
instead raises `IndexError` at `byte_data[-2]`.  The unreachable final line
`record.flags = struct_unpack('B', byte_data[-1])` would itself raise
`TypeError` (an int passed where bytes are expected).  Returns the record
state at exit together with the raised exception, if any. -/
def melDebrData_load (byte_data : List Nat) : DebrState × Option PyError :=
  match byte_data.head? with
  | none => (⟨none, none, none⟩, some .structError)
  | some b0 =>
    let mp := ((byte_data.drop 1).dropLast).dropLast
    let st : DebrState := ⟨some b0, some mp, none⟩
    if byte_data.length < 2 then (st, some .indexError)
    else
      let b_pen := byte_data.getD (byte_data.length - 2) 0
      if pyIntEqBytes b_pen null1 then (st, some .typeError)
      else (st, some .modError)

/-! ### `MelMODS.pack_subrecord_data` (`common_subrecords.py`) -/

/-- One entry of the MODS list: `(string, int_fid, index)`.  `K` stands for
the Python `str` type of the 3D name (totally ordered by code points). -/
abbrev ModsEntry (K : Type) := K × Nat × Nat

/-- The sort key of `mods_data.sort(key=lambda e: (e[0], e[2]))`: the pair
(3D name, 3D index). -/
def modsKey {K : Type} (e : ModsEntry K) : K × Nat := (e.1, e.2.2)

/-- Python's `<=` on the sort keys: lexicographic on (name, index). -/
def modsKeyLe {K : Type} [LinearOrder K] (a b : ModsEntry K) : Prop :=
  a.1 < b.1 ∨ (a.1 = b.1 ∧ a.2.2 ≤ b.2.2)

/-- Python's `<` on the sort keys: strict lexicographic on (name, index). -/
def modsKeyLt {K : Type} [LinearOrder K] (a b : ModsEntry K) : Prop :=
  a.1 < b.1 ∨ (a.1 = b.1 ∧ a.2.2 < b.2.2)

instance {K : Type} [LinearOrder K] : DecidableRel (@modsKeyLe K _) :=
  fun _ _ => inferInstanceAs (Decidable (_ ∨ _))

instance {K : Type} [LinearOrder K] : DecidableRel (@modsKeyLt K _) :=
  fun _ _ => inferInstanceAs (Decidable (_ ∨ _))

instance {K : Type} [LinearOrder K] : IsTotal (ModsEntry K) modsKeyLe where
  total a b := by
    rcases lt_trichotomy a.1 b.1 with h | h | h
    · exact Or.inl (Or.inl h)
    · rcases le_total a.2.2 b.2.2 with h2 | h2
      · exact Or.inl (Or.inr ⟨h, h2⟩)
      · exact Or.inr (Or.inr ⟨h.symm, h2⟩)
    · exact Or.inr (Or.inl h)

instance {K : Type} [LinearOrder K] : IsTrans (ModsEntry K) modsKeyLe where
  trans a b c hab hbc := by
    rcases hab with h1 | ⟨h1, h1i⟩
    · rcases hbc with h2 | ⟨h2, _⟩
      · exact Or.inl (h1.trans h2)
      · exact Or.inl (h2 ▸ h1)
    · rcases hbc with h2 | ⟨h2, h2i⟩
      · exact Or.inl (h1 ▸ h2)
      · exact Or.inr ⟨h1.trans h2, h1i.trans h2i⟩

instance {K : Type} [LinearOrder K] : IsAntisymm (ModsEntry K) modsKeyLt where
  antisymm a b hab hba := by
    exfalso
    rcases hab with h1 | ⟨h1, h1i⟩
    · rcases hba with h2 | ⟨h2, _⟩
      · exact lt_asymm h1 h2
      · exact absurd h2 (ne_of_gt h1)
    · rcases hba with h2 | ⟨_, h2i⟩
      · exact absurd h1 (ne_of_gt h2)
      · exact lt_asymm h1i h2i

/-- A 32-bit little-endian encoding of an integer, embedding the
`structs_cache['I'].pack` calls of `MelMODS.pack_subrecord_data` (and the
`MelFid` packer, which also packs a 4-byte unsigned int). -/
def u32le (n : Nat) : List Nat :=
  [n % 256, n / 2 ^ 8 % 256, n / 2 ^ 16 % 256, n / 2 ^ 24 % 256]

/-- The bytes emitted for one MODS entry:
`__packer(len(string)), encode(string), __fid_packer(int_fid),
__packer(index)`.  `klen` embeds Python `len` on the name and `enc` the
`encode` call (both live outside the provided sources). -/
def packModsEntry {K : Type} (klen : K → Nat) (enc : K → List Nat)
    (e : ModsEntry K) : List Nat :=
  u32le (klen e.1) ++ enc e.1 ++ u32le e.2.1 ++ u32le e.2.2

/-- `MelMODS.pack_subrecord_data`: `None` when the attribute is `None`;
otherwise sort the list in place by the key `(e[0], e[2])` (Python's stable
sort, embedded as insertion sort, which is likewise stable for `modsKeyLe`)
and join the count with the per-entry encodings. -/
def melMODS_pack {K : Type} [LinearOrder K] (klen : K → Nat)
    (enc : K → List Nat) (mods_data : Option (List (ModsEntry K))) :
    Option (List Nat) :=
  match mods_data with
  | none => none
  | some l =>
    let sorted_l := l.insertionSort modsKeyLe
    some (u32le sorted_l.length ++
      (sorted_l.map (packModsEntry klen enc)).flatten)

/-! ## Theorems -/

/-- C1: for every masters list and short id `s` with `s >>> 24` in range, the
`FormId` class produced by `FormId.from_masters` (non-overlay) resolves `s`
to the long form `(masters[s >>> 24], s &&& 0xFFFFFF)`. -/
theorem from_masters_resolves_short {FN : Type} (masters : List FN) (s : Nat)
    (h : mod_dex s < masters.length) :
    fromMastersLongFid FN masters s =
      .ok (masters.get ⟨mod_dex s, h⟩, s &&& 0xFFFFFF) := by
  unfold fromMastersLongFid
  rw [List.getElem?_eq_getElem h]
  rfl

/-- C1 witness: the short id `0x01000003` under master list
`["Foo.esm", "Bar.esp"]` resolves to the long form `("Bar.esp", 3)`. -/
theorem from_masters_resolves_short_witness :
    mod_dex 0x01000003 < (["Foo.esm", "Bar.esp"] : List String).length ∧
      fromMastersLongFid String ["Foo.esm", "Bar.esp"] 0x01000003 =
        .ok ("Bar.esp", 3) :=
  ⟨by decide, by
    have h := @from_masters_resolves_short String
      ["Foo.esm", "Bar.esp"] 0x01000003 (by decide)
    exact h.trans rfl⟩

/-- C2: for a plain `FormId` built outside any load context, `long_fid` is
the bare short integer, so extracting the long form's owning file
(`FormId.mod_fn`) raises `StateError`. -/
theorem base_formid_mod_fn_state_error (FN : Type) (s : Nat) :
    mod_fn (baseLongFid FN s) = .error .stateError := rfl

/-- C3: with an active dump-time resolver, every `FormId` comparison dunder
compares the operands' `short_mapper` images; with no active resolver, each
compares `long_fid`s — lexicographically once both are in long form. -/
theorem fid_compare_dichotomy {FN : Type} [LinearOrder FN]
    (m : LongFid FN → Nat) (a b : LongFid FN) (f1 f2 : FN) (o1 o2 : Nat) :
    (fid_lt (some m) a b = .ok (decide (m a < m b)) ∧
      fid_le (some m) a b = .ok (decide (m a ≤ m b)) ∧
      fid_gt (some m) a b = .ok (decide (m b < m a)) ∧
      fid_ge (some m) a b = .ok (decide (m b ≤ m a))) ∧
    (fid_lt none a b = long_lt a b ∧
      fid_le none a b = long_le a b ∧
      fid_gt none a b = long_gt a b ∧
      fid_ge none a b = long_ge a b) ∧
    (fid_lt none (.long f1 o1) (.long f2 o2) =
        .ok (decide (f1 < f2 ∨ (f1 = f2 ∧ o1 < o2))) ∧
      fid_le none (.long f1 o1) (.long f2 o2) =
        .ok (decide (f1 < f2 ∨ (f1 = f2 ∧ o1 ≤ o2))) ∧
      fid_gt none (.long f1 o1) (.long f2 o2) =
        .ok (decide (f2 < f1 ∨ (f2 = f1 ∧ o2 < o1))) ∧
      fid_ge none (.long f1 o1) (.long f2 o2) =
        .ok (decide (f2 < f1 ∨ (f2 = f1 ∧ o2 ≤ o1)))) :=
  ⟨⟨rfl, rfl, rfl, rfl⟩, ⟨rfl, rfl, rfl, rfl⟩, rfl, rfl, rfl, rfl⟩

/-- C4: the `NONE_FID` sentinel compares strictly greater than every real
`FormId` (`NONE > f` is `True`, `NONE < f` is `False`, and `f < NONE` is
`True` via the reflected `_NoneFid.__gt__` after `FormId.__lt__` returns
`NotImplemented`), and is equal only to itself. -/
theorem none_fid_sorts_last {FN : Type} [LinearOrder FN] (f : LongFid FN) :
    pyGt FidOrNone.nf (.real f) = .ok true ∧
    pyLt FidOrNone.nf (.real f) = .ok false ∧
    pyEq (FidOrNone.nf : FidOrNone FN) FidOrNone.nf = .ok true ∧
    pyEq FidOrNone.nf (.real f) = .ok false ∧
    pyLt (.real f) FidOrNone.nf = .ok true :=
  ⟨rfl, rfl, rfl, rfl, rfl⟩

/-- C5 counterexample: `_NoneFid.dump` does not raise — it returns the
integer `0xFFFFFFFF`, refuting the claim that dumping every sentinel is a
hard error. -/
theorem none_fid_dump_returns : noneFid_dump = Except.ok 0xFFFFFFFF := rfl

/-- C5 (amended): `_DummyFid.dump` raises (`NotImplementedError`), while
`_NoneFid.dump` returns the NONE marker value `0xFFFFFFFF` instead of
raising. -/
theorem sentinel_dump_behaviour :
    dummyFid_dump = Except.error PyError.notImplementedError ∧
      noneFid_dump = Except.ok 0xFFFFFFFF :=
  ⟨rfl, rfl⟩

/-- C9: `FormId.is_null` is true exactly when the low 24 bits (the object
index) of the short form are zero; in particular `0x01000000` is reported
null despite its nonzero master-index byte. -/
theorem is_null_iff_low24_zero :
    (∀ s : Nat, is_null s = true ↔ s % 2 ^ 24 = 0) ∧
      is_null 0x01000000 = true := by
  constructor
  · intro s
    have h : object_dex s = s % 2 ^ 24 := by
      show s &&& 0xFFFFFF = s % 2 ^ 24
      apply Nat.eq_of_testBit_eq
      intro i
      rw [Nat.testBit_and, Nat.testBit_mod_two_pow,
        show (0xFFFFFF : Nat) = 2 ^ 24 - 1 by norm_num,
        Nat.testBit_two_pow_sub_one, Bool.and_comm]
    simp [is_null, h]
  · decide

theorem ite_pair_fst {α β : Type} (c : Prop) [Decidable c] (x : α)
    (a b : β) : (if c then (x, a) else (x, b)).1 = x := by
  split <;> rfl

theorem ite_pair_snd {α β : Type} (c : Prop) [Decidable c] (x : α)
    (a b : β) : (if c then (x, a) else (x, b)).2 = if c then a else b := by
  split <;> rfl

theorem testBit_flags_setitem_self (f i : Nat) (v : Bool) :
    (flags_setitem f i v).testBit i = v := by
  unfold flags_setitem
  cases v with
  | true =>
    simp [Nat.testBit_or, Nat.one_shiftLeft, Nat.testBit_two_pow_self]
  | false =>
    cases hfb : f.testBit i with
    | false => simp [hfb, Nat.xor_zero]
    | true =>
      simp [hfb, Nat.testBit_xor, Nat.one_shiftLeft, Nat.testBit_two_pow_self]

theorem testBit_flags_setitem_other (f i j : Nat) (v : Bool) (hij : j ≠ i) :
    (flags_setitem f i v).testBit j = f.testBit j := by
  unfold flags_setitem
  cases v with
  | true =>
    simp [Nat.testBit_or, Nat.one_shiftLeft,
      Nat.testBit_two_pow_of_ne (Ne.symm hij)]
  | false =>
    cases hfb : f.testBit i with
    | false => simp [hfb, Nat.xor_zero]
    | true =>
      simp [hfb, Nat.testBit_xor, Nat.one_shiftLeft,
        Nat.testBit_two_pow_of_ne (Ne.symm hij)]

/-- C6: `_SpellFlags.__setitem__` at index 1 (`immuneToSilence`) also drives
bit 3 to the same value and touches no other bit; at any other index it
changes exactly that bit. -/
theorem spell_flags_linked_bits (f : Nat) (v : Bool) (i j : Nat) :
    ((spellFlags_setitem f 1 v).testBit 1 = v ∧
      (spellFlags_setitem f 1 v).testBit 3 = v ∧
      (j ≠ 1 → j ≠ 3 →
        (spellFlags_setitem f 1 v).testBit j = f.testBit j)) ∧
    (i ≠ 1 → (spellFlags_setitem f i v).testBit i = v ∧
      ∀ k, k ≠ i → (spellFlags_setitem f i v).testBit k = f.testBit k) := by
  constructor
  · have e : spellFlags_setitem f 1 v = flags_setitem (flags_setitem f 1 v) 3 v := by
      simp [spellFlags_setitem]
    refine ⟨?_, ?_, ?_⟩
    · rw [e, testBit_flags_setitem_other _ _ _ _ (by decide),
        testBit_flags_setitem_self]
    · rw [e, testBit_flags_setitem_self]
    · intro h1 h3
      rw [e, testBit_flags_setitem_other _ _ _ _ h3,
        testBit_flags_setitem_other _ _ _ _ h1]
  · intro hi
    have e : spellFlags_setitem f i v = flags_setitem f i v := by
      simp [spellFlags_setitem, hi]
    exact ⟨by rw [e, testBit_flags_setitem_self],
      fun k hk => by rw [e, testBit_flags_setitem_other _ _ _ _ hk]⟩

/-- C6 witness: setting index 1 on the empty flag set also sets bit 3 and
leaves bit 0 alone; setting index 2 on the flag value 8 sets only bit 2. -/
theorem spell_flags_linked_bits_witness :
    (spellFlags_setitem 0 1 true).testBit 1 = true ∧
    (spellFlags_setitem 0 1 true).testBit 3 = true ∧
    (spellFlags_setitem 0 1 true).testBit 0 = Nat.testBit 0 0 ∧
    (spellFlags_setitem 8 2 true).testBit 2 = true ∧
    (spellFlags_setitem 8 2 true).testBit 3 = Nat.testBit 8 3 := by
  have h := spell_flags_linked_bits 0 true 2 0
  have h2 := spell_flags_linked_bits 8 true 2 0
  exact ⟨h.1.1, h.1.2.1, h.1.2.2 (by decide) (by decide),
    (h2.2 (by decide)).1, (h2.2 (by decide)).2 3 (by decide)⟩

/-- C7: `MelRaceVoices.pack_subrecord_data` zeroes a voice equal to the
record's own fid; when both voices are then zero it returns `None` (the
subrecord is skipped), otherwise it hands the (possibly zeroed) voices to
the normal struct packer. -/
theorem race_voices_normalized {V B : Type} [DecidableEq V] (zero : V)
    (packS : V → V → B) (r : RaceVoicesRec V) :
    ((melRaceVoices_pack zero packS r).1.maleVoice =
        (if r.maleVoice = r.fid then zero else r.maleVoice)) ∧
    ((melRaceVoices_pack zero packS r).1.femaleVoice =
        (if r.femaleVoice = r.fid then zero else r.femaleVoice)) ∧
    ((melRaceVoices_pack zero packS r).1.maleVoice = zero →
      (melRaceVoices_pack zero packS r).1.femaleVoice = zero →
      (melRaceVoices_pack zero packS r).2 = none) ∧
    (¬((melRaceVoices_pack zero packS r).1.maleVoice = zero ∧
        (melRaceVoices_pack zero packS r).1.femaleVoice = zero) →
      (melRaceVoices_pack zero packS r).2 =
        some (packS (melRaceVoices_pack zero packS r).1.maleVoice
          (melRaceVoices_pack zero packS r).1.femaleVoice)) := by
  simp only [melRaceVoices_pack]
  rw [ite_pair_fst, ite_pair_snd]
  refine ⟨rfl, rfl, ?_, ?_⟩
  · intro hm hf
    rw [if_neg (not_not_intro (by rw [show (if r.maleVoice = r.fid then zero
      else r.maleVoice) = zero from hm, show (if r.femaleVoice = r.fid then
      zero else r.femaleVoice) = zero from hf]))]
  · intro hc
    rw [if_pos]
    intro he
    exact hc ⟨congrArg Prod.fst he, congrArg Prod.snd he⟩

/-- C7 witness: with the record's own fid 5, a male voice 5 is zeroed and
the pair `(0, 7)` is packed; with male voice 5 and female voice 0 both end
up zero and the subrecord is skipped. -/
theorem race_voices_normalized_witness :
    (melRaceVoices_pack 0 Prod.mk (RaceVoicesRec.mk 5 7 5)).2 =
        some ((0 : Nat), (7 : Nat)) ∧
      (melRaceVoices_pack 0 Prod.mk (RaceVoicesRec.mk 5 0 5)).2 = none := by
  have h1 := @race_voices_normalized Nat (Nat × Nat) _ 0 Prod.mk ⟨5, 7, 5⟩
  have h2 := @race_voices_normalized Nat (Nat × Nat) _ 0 Prod.mk ⟨5, 0, 5⟩
  exact ⟨(h1.2.2.2 (by decide)).trans (by decide),
    h2.2.2.1 (by decide) (by decide)⟩

/-- C10: on every chunk of at least 2 bytes, `MelDebrData.load_mel` raises
`ModError` — its trailing-null check compares the int `byte_data[-2]`
against the bytes constant `null1`, which are never equal — and the `flags`
attribute is never populated. -/
theorem debr_load_always_raises (byte_data : List Nat)
    (h : 2 ≤ byte_data.length) :
    (melDebrData_load byte_data).2 = some PyError.modError ∧
      (melDebrData_load byte_data).1.debr_flags = none := by
  cases byte_data with
  | nil => simp at h
  | cons b0 rest =>
    simp only [List.length_cons] at h
    unfold melDebrData_load
    simp only [List.head?_cons, pyIntEqBytes, List.length_cons, if_false]
    rw [if_neg (by omega : ¬rest.length + 1 < 2)]
    exact ⟨rfl, rfl⟩

/-- C10 witness: loading the 3-byte chunk `[7, 1, 0]` (whose trailing bytes
are genuinely null) still raises `ModError` and leaves `flags` unset. -/
theorem debr_load_always_raises_witness :
    2 ≤ ([7, 1, 0] : List Nat).length ∧
      (melDebrData_load [7, 1, 0]).2 = some PyError.modError ∧
      (melDebrData_load [7, 1, 0]).1.debr_flags = none :=
  ⟨by decide, debr_load_always_raises [7, 1, 0] (by decide)⟩

/-- C9 witness: `0x01000000`, whose object index is zero but whose
master-index byte is 1, is reported null, and indeed `0x01000000 % 2^24`
is zero. -/
theorem is_null_iff_low24_zero_witness :
    is_null 0x01000000 = true ∧ 0x01000000 % 2 ^ 24 = 0 :=
  ⟨is_null_iff_low24_zero.2,
    (is_null_iff_low24_zero.1 0x01000000).mp is_null_iff_low24_zero.2⟩

theorem modsKeyLt_of_le_ne {K : Type} [LinearOrder K] {a b : ModsEntry K}
    (hle : modsKeyLe a b) (hne : modsKey a ≠ modsKey b) : modsKeyLt a b := by
  rcases hle with h | ⟨h, hi⟩
  · exact Or.inl h
  · refine Or.inr ⟨h, lt_of_le_of_ne hi ?_⟩
    intro he
    exact hne (by unfold modsKey; rw [h, he])

theorem sorted_mods_key_unique {K : Type} [LinearOrder K]
    {l1 l2 : List (ModsEntry K)} (hperm : l1.Perm l2)
    (hs1 : l1.Sorted modsKeyLe) (hs2 : l2.Sorted modsKeyLe)
    (hd1 : l1.Pairwise fun a b => modsKey a ≠ modsKey b) : l1 = l2 := by
  have hd2 : l2.Pairwise fun a b => modsKey a ≠ modsKey b :=
    (hperm.pairwise_iff fun hxy => Ne.symm hxy).1 hd1
  have hlt1 : l1.Sorted modsKeyLt :=
    List.Pairwise.imp (fun hab => modsKeyLt_of_le_ne hab.1 hab.2)
      (List.Pairwise.and hs1 hd1)
  have hlt2 : l2.Sorted modsKeyLt :=
    List.Pairwise.imp (fun hab => modsKeyLt_of_le_ne hab.1 hab.2)
      (List.Pairwise.and hs2 hd2)
  exact List.eq_of_perm_of_sorted hperm hlt1 hlt2

/-- C8: `MelMODS.pack_subrecord_data` emits the entries sorted by the key
(3D name, 3D index), so two MODS lists that are permutations of each other
with pairwise-distinct keys produce identical bytes. -/
theorem mods_pack_canonical {K : Type} [LinearOrder K] (klen : K → Nat)
    (enc : K → List Nat) (l1 l2 : List (ModsEntry K)) (hperm : l1.Perm l2)
    (hdist : l1.Pairwise fun a b => modsKey a ≠ modsKey b) :
    (l1.insertionSort modsKeyLe).Sorted modsKeyLe ∧
      melMODS_pack klen enc (some l1) = melMODS_pack klen enc (some l2) := by
  refine ⟨List.sorted_insertionSort modsKeyLe l1, ?_⟩
  have hs : l1.insertionSort modsKeyLe = l2.insertionSort modsKeyLe := by
    apply sorted_mods_key_unique
    · exact (List.perm_insertionSort modsKeyLe l1).trans
        (hperm.trans (List.perm_insertionSort modsKeyLe l2).symm)
    · exact List.sorted_insertionSort modsKeyLe l1
    · exact List.sorted_insertionSort modsKeyLe l2
    · exact ((List.perm_insertionSort modsKeyLe l1).pairwise_iff
        fun hxy => Ne.symm hxy).2 hdist
  simp only [melMODS_pack]
  rw [hs]

/-- C8 witness: two 2-entry MODS lists that are permutations of each other
with distinct (name, index) keys pack to the same bytes. -/
theorem mods_pack_canonical_witness :
    melMODS_pack (fun k => k) (fun k => [k])
        (some [((2 : Nat), 10, 0), (1, 20, 5)]) =
      melMODS_pack (fun k => k) (fun k => [k])
        (some [((1 : Nat), 20, 5), (2, 10, 0)]) :=
  (mods_pack_canonical (fun k => k) (fun k => [k]) _ _
    (by decide) (by decide)).2

end Brec
